import Mathlib

/-!
Shallow embedding of the real-time synchronization subsystem of the
hospital-monitoring dashboard (frontend): the WebSocket connection manager
and message dispatcher (src/frontend/src/hooks/useWebSocket.ts), the
dashboard metric history buffer (src/frontend/src/app/page.tsx), the
alerts page refetch/fetch logic (AlertsPage), and the devices page fetch
logic (src/frontend/src/app/devices/page.tsx).

Machine numbers are modelled as Nat/Int; JSON values as an inductive type;
the asynchronous handlers as pure step functions on explicit state.
-/

namespace HospitalMonitor

/-! ## JSON model

A parsed frame, as produced by JSON.parse on a text message, restricted to
the shapes the dispatcher inspects: an object with string keys whose values
are strings, numbers, booleans or null. A frame that is not valid JSON is
represented by the parse result `none` (JSON.parse throws, the catch block
ignores it). -/

inductive JsonVal where
  | str (s : String)
  | num (n : Int)
  | bool (b : Bool)
  | null
  deriving DecidableEq, Repr

structure JsonObj where
  fields : List (String × JsonVal)
  deriving DecidableEq, Repr

/-- Field lookup, `data.key` on the parsed object. The concrete frames in
this development have pairwise distinct keys, so first-match lookup agrees
with JavaScript field access. -/
def JsonObj.get (o : JsonObj) (k : String) : Option JsonVal :=
  (o.fields.find? fun p => p.1 == k).map Prod.snd

/-! ## Connection manager (useWebSocket.ts)

Constants from lines 11-12, the backoff delay from the onclose handler
(lines 73-79), and the open/close lifecycle as a step function on the
connection state (isConnected flag and reconnectAttempt counter). -/

def MAX_RECONNECT_DELAY_MS : ℕ := 30000

def BASE_RECONNECT_DELAY_MS : ℕ := 1000

/-- Delay computed in ws.onclose:
`Math.min(BASE_RECONNECT_DELAY_MS * 2 ** reconnectAttempt, MAX_RECONNECT_DELAY_MS)`. -/
def reconnectDelay (attempt : ℕ) : ℕ :=
  min (BASE_RECONNECT_DELAY_MS * 2 ^ attempt) MAX_RECONNECT_DELAY_MS

structure ConnState where
  isConnected : Bool
  reconnectAttempt : ℕ
  deriving DecidableEq, Repr

/-- Initial hook state: `useState(false)` for isConnected, `useRef(0)` for
reconnectAttempt. -/
def initConn : ConnState := ⟨false, 0⟩

inductive ConnEvent where
  | opened
  | closed (code : ℕ)
  deriving DecidableEq, Repr

/-- One lifecycle callback. ws.onopen sets isConnected true and resets
reconnectAttempt to 0. ws.onclose sets isConnected false and, when the
close code is not 1000, schedules a reconnect after
`reconnectDelay reconnectAttempt` (returned as the second component) and
then increments reconnectAttempt; a close with code 1000 schedules
nothing. -/
def connStep (s : ConnState) : ConnEvent → ConnState × Option ℕ
  | .opened => (⟨true, 0⟩, none)
  | .closed code =>
      if code ≠ 1000 then
        (⟨false, s.reconnectAttempt + 1⟩, some (reconnectDelay s.reconnectAttempt))
      else
        (⟨false, s.reconnectAttempt⟩, none)

/-- Delays scheduled along a sequence of lifecycle events, in order. -/
def connDelays (s : ConnState) : List ConnEvent → List ℕ
  | [] => []
  | e :: es => (connStep s e).2.toList ++ connDelays (connStep s e).1 es

/-! ## Message dispatcher and alert counter (useWebSocket.ts onmessage)

The onmessage handler parses the frame; on parse failure nothing happens.
On success it stores the parsed object as lastMessage, then updates the
alert counter from the type field alone. -/

/-- Alert-count transition of the onmessage handler (lines 57-62):
`type === "alert_new"` increments, then
`type === "alert_ack" || type === "alert_resolve"` replaces the count by
`Math.max(0, count - 1)`; any other type leaves it unchanged. The counter
is an Int so that the non-negativity invariant is a real statement. -/
def alertCountStep (data : JsonObj) (c : ℤ) : ℤ :=
  let c1 := if data.get "type" = some (JsonVal.str "alert_new") then c + 1 else c
  if data.get "type" = some (JsonVal.str "alert_ack")
      ∨ data.get "type" = some (JsonVal.str "alert_resolve") then
    max 0 (c1 - 1)
  else c1

structure HookState where
  alertCount : ℤ
  lastMessage : Option JsonObj
  deriving DecidableEq, Repr

/-- The onmessage handler on the hook state. A frame that fails to parse
(`none`) is swallowed by the catch block; a parsed frame becomes the new
lastMessage and drives the alert counter. -/
def onMessage (raw : Option JsonObj) (s : HookState) : HookState :=
  match raw with
  | none => s
  | some data => ⟨alertCountStep data s.alertCount, some data⟩

/-! ## Dashboard metric history buffer (app/page.tsx, lines 90-101)

The lastMessage effect appends the cpu sample with
`[...prev.slice(-29), item]`: keep the last 29 entries, then append. The
wall-clock timestamp attached to each entry is irrelevant to the claims and
is abstracted away; the buffer holds the appended values. -/

/-- One append: `[...prev.slice(-29), v]`. `slice(-29)` keeps the last 29
elements (all of them when fewer), i.e. drops `length - 29` from the
front. -/
def pushSample {α : Type} (hist : List α) (v : α) : List α :=
  hist.drop (hist.length - 29) ++ [v]

/-- Effect of a parsed frame on the cpu history: only a frame whose type is
"metric_update" and whose cpu_usage_percent field is present and non-null
(`payload.cpu_usage_percent != null`) appends its value. -/
def metricStep (data : JsonObj) (hist : List JsonVal) : List JsonVal :=
  if data.get "type" = some (JsonVal.str "metric_update") then
    match data.get "cpu_usage_percent" with
    | some v => if v = JsonVal.null then hist else pushSample hist v
    | none => hist
  else hist

/-! ## Page-level refetch triggered by dispatched events

AlertsPage subscribes to lastMessage and calls fetchAlerts when the type is
one of the three alert kinds (part_000, lines 63-69). DevicesPage has no
useWebSocket subscription at all: no dispatched event reaches it, so its
fetch count is unchanged by any frame. -/

/-- True when the frame type is alert_new, alert_ack or alert_resolve. -/
def isAlertEvent (data : JsonObj) : Prop :=
  data.get "type" = some (JsonVal.str "alert_new")
    ∨ data.get "type" = some (JsonVal.str "alert_ack")
    ∨ data.get "type" = some (JsonVal.str "alert_resolve")

instance (data : JsonObj) : Decidable (isAlertEvent data) := by
  unfold isAlertEvent; infer_instance

/-- AlertsPage lastMessage effect: a dispatched alert event triggers one
fetchAlerts call. -/
def alertsEventRefetch (data : JsonObj) (fetches : ℕ) : ℕ :=
  if isAlertEvent data then fetches + 1 else fetches

/-- DevicesPage registers no WebSocket handler (it does not import
useWebSocket), so dispatched events trigger no fetch there. -/
def devicesEventRefetch (_data : JsonObj) (fetches : ℕ) : ℕ := fetches

/-! ## The whole system driven by one inbound frame -/

structure SystemState where
  hook : HookState
  cpuHistory : List JsonVal
  alertsFetches : ℕ
  devicesFetches : ℕ
  deriving DecidableEq, Repr

def initSystem : SystemState := ⟨⟨0, none⟩, [], 0, 0⟩

/-- Deliver one raw frame (already put through JSON.parse: `none` when the
parse failed) to every consumer: the hook updates lastMessage and the alert
counter, the dashboard effect updates the cpu history, the alerts page
effect may refetch, and the devices page is untouched. A failed parse
mutates nothing. -/
def dispatch (raw : Option JsonObj) (s : SystemState) : SystemState :=
  match raw with
  | none => s
  | some data =>
      { hook := onMessage (some data) s.hook
        cpuHistory := metricStep data s.cpuHistory
        alertsFetches := alertsEventRefetch data s.alertsFetches
        devicesFetches := devicesEventRefetch data s.devicesFetches }

def dispatchAll (frames : List (Option JsonObj)) (s : SystemState) : SystemState :=
  frames.foldl (fun t raw => dispatch raw t) s

/-! ## Concrete frames used in scenarios -/

/-- JSON.parse("not json") throws (the text is not valid JSON), so the
parse result of that frame is modelled as `none`. -/
def notJsonParse : Option JsonObj := none

def unknownKindFrame : JsonObj := ⟨[("type", JsonVal.str "unknown_kind")]⟩

def alertNewFrame : JsonObj :=
  ⟨[("type", JsonVal.str "alert_new"), ("alert_id", JsonVal.str "a1")]⟩

def alertAckFrame : JsonObj :=
  ⟨[("type", JsonVal.str "alert_ack"), ("alert_id", JsonVal.str "a1")]⟩

def alertResolveFrame : JsonObj :=
  ⟨[("type", JsonVal.str "alert_resolve"), ("alert_id", JsonVal.str "a1")]⟩

/-- Frame carrying only the discriminator, no alert_id or other payload. -/
def alertNewBareFrame : JsonObj := ⟨[("type", JsonVal.str "alert_new")]⟩

def deviceIsolatedFrame : JsonObj :=
  ⟨[("type", JsonVal.str "device_isolated"), ("device_id", JsonVal.str "d1")]⟩

def deviceReinstatedFrame : JsonObj :=
  ⟨[("type", JsonVal.str "device_reinstated"), ("device_id", JsonVal.str "d1")]⟩

def metricFrame (v : Int) : JsonObj :=
  ⟨[("type", JsonVal.str "metric_update"), ("cpu_usage_percent", JsonVal.num v)]⟩

/-! ## Snapshot fetch resolution (AlertsPage fetchAlerts, DevicesPage fetchDevices)

Both fetch callbacks resolve into the same shape of display state:
`{items, total, loading}`. Item records are abstracted to identifiers, since
only the identity of the resolved list matters to the claims. A resolving
response is either a success carrying items and total (after the `?? []`
and `?? 0` fallbacks) or a failure (the catch branch). Responses are
applied to the display state in the order they resolve. -/

inductive FetchResponse where
  | ok (items : List ℕ) (total : ℕ)
  | err
  deriving DecidableEq, Repr

structure AlertsDisplay where
  items : List ℕ
  total : ℕ
  loading : Bool
  deriving DecidableEq, Repr

/-- Resolution of one fetchAlerts call (part_000 lines 47-58): on success
setAlerts(items) and setTotal(total); on failure setAlerts([]) and total is
left alone; finally setLoading(false) in both branches. -/
def applyAlertsResponse (d : AlertsDisplay) : FetchResponse → AlertsDisplay
  | .ok items total => ⟨items, total, false⟩
  | .err => ⟨[], d.total, false⟩

structure DevicesDisplay where
  items : List ℕ
  total : ℕ
  loading : Bool
  deriving DecidableEq, Repr

/-- Resolution of one fetchDevices call (devices/page.tsx lines 31-45):
identical structure to applyAlertsResponse. -/
def applyDevicesResponse (d : DevicesDisplay) : FetchResponse → DevicesDisplay
  | .ok items total => ⟨items, total, false⟩
  | .err => ⟨[], d.total, false⟩

/-! ## Refetch coordinators: when a snapshot fetch is issued

AlertsPage: fetchAlerts is a useCallback with dependencies [filter, page];
the effect `useEffect(fetchAlerts, [fetchAlerts])` re-runs exactly when the
callback identity changes, i.e. when (filter, page) changes (the page size
LIMIT is the constant 20). The filter buttons run setFilter(f) and
setPage(1); React skips the update when both values are unchanged. The
lastMessage effect calls fetchAlerts directly on the three alert event
kinds, and the refresh button calls it directly.

DevicesPage: fetchDevices is a useCallback with dependencies [page, search]
(LIMIT is the constant 25) and the same mount/change effect; the search box
runs setSearch(q) and setPage(1); there is no WebSocket effect. -/

structure AlertsRequest where
  filter : String
  page : ℕ
  deriving DecidableEq, Repr

inductive AlertsPageInput where
  | clickFilter (f : String)
  | setPage (p : ℕ)
  | wsEvent (data : JsonObj)
  | clickRefresh
  deriving Repr

structure AlertsPageState where
  request : AlertsRequest
  fetches : ℕ
  deriving DecidableEq, Repr

/-- One input to the alerts page; `fetches` counts issued snapshot
fetches. A request change re-triggers the fetch effect exactly when the new
(filter, page) pair differs from the current one. -/
def alertsPageStep (s : AlertsPageState) : AlertsPageInput → AlertsPageState
  | .clickFilter f =>
      let r : AlertsRequest := ⟨f, 1⟩
      ⟨r, if r ≠ s.request then s.fetches + 1 else s.fetches⟩
  | .setPage p =>
      let r : AlertsRequest := ⟨s.request.filter, p⟩
      ⟨r, if r ≠ s.request then s.fetches + 1 else s.fetches⟩
  | .wsEvent data =>
      if isAlertEvent data then ⟨s.request, s.fetches + 1⟩ else s
  | .clickRefresh => ⟨s.request, s.fetches + 1⟩

structure DevicesRequest where
  search : String
  page : ℕ
  deriving DecidableEq, Repr

inductive DevicesPageInput where
  | setSearch (q : String)
  | setPage (p : ℕ)
  | wsEvent (data : JsonObj)
  | clickRefresh
  deriving Repr

structure DevicesPageState where
  request : DevicesRequest
  fetches : ℕ
  deriving DecidableEq, Repr

/-- One input to the devices page. The page defines no WebSocket handler,
so a dispatched event is a no-op here. -/
def devicesPageStep (s : DevicesPageState) : DevicesPageInput → DevicesPageState
  | .setSearch q =>
      let r : DevicesRequest := ⟨q, 1⟩
      ⟨r, if r ≠ s.request then s.fetches + 1 else s.fetches⟩
  | .setPage p =>
      let r : DevicesRequest := ⟨s.request.search, p⟩
      ⟨r, if r ≠ s.request then s.fetches + 1 else s.fetches⟩
  | .wsEvent _ => s
  | .clickRefresh => ⟨s.request, s.fetches + 1⟩

/-! ## Helper lemmas -/

theorem pushSample_length {α : Type} (b : List α) (x : α) :
    (pushSample b x).length = min b.length 29 + 1 := by
  simp [pushSample]
  omega

/-- Closed form of repeated appends: the buffer holds the last 30 of the
prior contents and the appended samples. -/
theorem foldl_pushSample_eq {α : Type} (l : List α) :
    ∀ b : List α, b.length ≤ 30 →
      l.foldl pushSample b = (b ++ l).drop (b.length + l.length - 30) := by
  induction l with
  | nil =>
      intro b hb
      simp [Nat.sub_eq_zero_of_le hb]
  | cons x l ih =>
      intro b hb
      have hlen : (pushSample b x).length ≤ 30 := by
        rw [pushSample_length]; omega
      rw [List.foldl_cons, ih (pushSample b x) hlen]
      by_cases h29 : b.length ≤ 29
      · have hpush : pushSample b x = b ++ [x] := by
          simp [pushSample, Nat.sub_eq_zero_of_le h29]
        rw [hpush]
        have hc : (b ++ [x]).length + l.length - 30
            = b.length + (x :: l).length - 30 := by
          simp; omega
        rw [hc, List.append_assoc]
        simp
      · have h30 : b.length = 30 := by omega
        have hpush : pushSample b x = b.drop 1 ++ [x] := by
          simp [pushSample, h30]
        rw [hpush]
        have hc0 : (b.drop 1 ++ [x]).length + l.length - 30 = l.length := by
          simp [h30]
        have hsplit : List.drop 1 (b ++ x :: l) = List.drop 1 b ++ (x :: l) := by
          rw [List.drop_append_eq_append_drop]
          simp [h30]
        rw [hc0, List.append_assoc, List.singleton_append, ← hsplit, List.drop_drop]
        have hc1 : 1 + l.length = b.length + (x :: l).length - 30 := by
          simp only [List.length_cons]
          omega
        rw [hc1]

theorem alertCountStep_nonneg (data : JsonObj) {c : ℤ} (hc : 0 ≤ c) :
    0 ≤ alertCountStep data c := by
  unfold alertCountStep
  by_cases h : data.get "type" = some (JsonVal.str "alert_ack")
      ∨ data.get "type" = some (JsonVal.str "alert_resolve")
  · simp [h]
  · simp only [h, if_false]
    by_cases h1 : data.get "type" = some (JsonVal.str "alert_new")
    · simp [h1]; omega
    · simp [h1, hc]

theorem dispatch_alertCount_nonneg (raw : Option JsonObj) (s : SystemState)
    (h : 0 ≤ s.hook.alertCount) : 0 ≤ (dispatch raw s).hook.alertCount := by
  cases raw with
  | none => exact h
  | some data => exact alertCountStep_nonneg data h

theorem dispatchAll_alertCount_nonneg (frames : List (Option JsonObj)) :
    ∀ s : SystemState, 0 ≤ s.hook.alertCount →
      0 ≤ (dispatchAll frames s).hook.alertCount := by
  induction frames with
  | nil => intro s h; exact h
  | cons f fs ih =>
      intro s h
      exact ih (dispatch f s) (dispatch_alertCount_nonneg f s h)

theorem alertCountStep_congr (d e : JsonObj) (c : ℤ)
    (h : d.get "type" = e.get "type") :
    alertCountStep d c = alertCountStep e c := by
  simp only [alertCountStep, h]

theorem reconnectDelay_mono {n m : ℕ} (h : n ≤ m) :
    reconnectDelay n ≤ reconnectDelay m := by
  unfold reconnectDelay
  exact min_le_min (Nat.mul_le_mul_left _ (Nat.pow_le_pow_right (by omega) h)) le_rfl

/-! ## Claim theorems -/

/-- C1: for every attempt count n the reconnect delay equals
min(1000 * 2 ^ n, 30000) ms, the delay is non-decreasing in n, and after an
open followed by three straight closes with code 1006 the scheduled delays
are 1000 ms, 2000 ms, 4000 ms. -/
theorem C1_reconnect_delay_backoff :
    (∀ n : ℕ, reconnectDelay n = min (1000 * 2 ^ n) 30000) ∧
    (∀ n m : ℕ, n ≤ m → reconnectDelay n ≤ reconnectDelay m) ∧
    connDelays initConn [.opened, .closed 1006, .closed 1006, .closed 1006]
      = [1000, 2000, 4000] :=
  ⟨fun _ => rfl, fun _ _ h => reconnectDelay_mono h, by decide⟩

/-- Witness for C1 at attempt counts 5 and 2 ≤ 7. -/
theorem C1_reconnect_delay_backoff_witness :
    reconnectDelay 5 = min (1000 * 2 ^ 5) 30000 ∧
    reconnectDelay 2 ≤ reconnectDelay 7 :=
  ⟨C1_reconnect_delay_backoff.1 5,
   C1_reconnect_delay_backoff.2.1 2 7 (by decide)⟩

/-- C2: the alert counter is never negative over any sequence of dispatched
events; alert_new increments it, alert_ack and alert_resolve replace it by
max(0, c - 1), any other kind leaves it unchanged, and dispatching
alert_new then alert_resolve from the initial state gives 0, 1, 0. -/
theorem C2_alert_counter_never_negative :
    (∀ (d : JsonObj) (c : ℤ), d.get "type" = some (JsonVal.str "alert_new") →
        alertCountStep d c = c + 1) ∧
    (∀ (d : JsonObj) (c : ℤ),
        d.get "type" = some (JsonVal.str "alert_ack")
          ∨ d.get "type" = some (JsonVal.str "alert_resolve") →
        alertCountStep d c = max 0 (c - 1)) ∧
    (∀ (d : JsonObj) (c : ℤ),
        d.get "type" ≠ some (JsonVal.str "alert_new") →
        d.get "type" ≠ some (JsonVal.str "alert_ack") →
        d.get "type" ≠ some (JsonVal.str "alert_resolve") →
        alertCountStep d c = c) ∧
    (∀ frames : List (Option JsonObj),
        0 ≤ (dispatchAll frames initSystem).hook.alertCount) ∧
    (initSystem.hook.alertCount = 0 ∧
     (dispatch (some alertNewFrame) initSystem).hook.alertCount = 1 ∧
     (dispatchAll [some alertNewFrame, some alertResolveFrame]
        initSystem).hook.alertCount = 0) := by
  refine ⟨?_, ?_, ?_, ?_, by decide, by decide, by decide⟩
  · intro d c h
    simp [alertCountStep, h]
  · intro d c h
    rcases h with h | h <;> simp [alertCountStep, h]
  · intro d c h1 h2 h3
    simp [alertCountStep, h1, h2, h3]
  · intro frames
    exact dispatchAll_alertCount_nonneg frames initSystem (by decide)

/-- Witness for C2 at the concrete frames with counter values 5, 0, 7. -/
theorem C2_alert_counter_never_negative_witness :
    alertCountStep alertNewFrame 5 = 5 + 1 ∧
    alertCountStep alertAckFrame 0 = max 0 (0 - 1) ∧
    alertCountStep unknownKindFrame 7 = 7 :=
  ⟨C2_alert_counter_never_negative.1 alertNewFrame 5 (by decide),
   C2_alert_counter_never_negative.2.1 alertAckFrame 0 (Or.inl (by decide)),
   C2_alert_counter_never_negative.2.2.1 unknownKindFrame 7
     (by decide) (by decide) (by decide)⟩

set_option maxRecDepth 4000 in
/-- C3: the metric history buffer never exceeds 30 entries, 31 appended
samples leave exactly samples 2 to 31 in arrival order, and 35 sequential
metric_update events with values 1..35 leave exactly the values 6..35, of
length 30. -/
theorem C3_metric_buffer_capacity :
    (∀ (α : Type) (l : List α), (l.foldl pushSample []).length ≤ 30) ∧
    (∀ (α : Type) (xs : List α), xs.length = 31 →
        xs.foldl pushSample [] = xs.drop 1) ∧
    ((dispatchAll ((List.range 35).map fun i => some (metricFrame (Int.ofNat i + 1)))
        initSystem).cpuHistory
      = (List.range 30).map (fun i => JsonVal.num (Int.ofNat i + 6)) ∧
     (dispatchAll ((List.range 35).map fun i => some (metricFrame (Int.ofNat i + 1)))
        initSystem).cpuHistory.length = 30) := by
  refine ⟨?_, ?_, by decide, by decide⟩
  · intro α l
    rw [foldl_pushSample_eq l [] (by simp)]
    simp
    omega
  · intro α xs hlen
    rw [foldl_pushSample_eq xs [] (by simp)]
    simp [hlen]

/-- Witness for C3 at 31 appended samples 0..30 and at 40 samples. -/
theorem C3_metric_buffer_capacity_witness :
    (List.range 31).foldl pushSample ([] : List ℕ) = (List.range 31).drop 1 ∧
    ((List.range 40).foldl pushSample ([] : List ℕ)).length ≤ 30 :=
  ⟨C3_metric_buffer_capacity.2.1 ℕ (List.range 31) (by decide),
   C3_metric_buffer_capacity.1 ℕ (List.range 40)⟩

/-- C4 counterexample: a frame with the unrecognized discriminator
unknown_kind does mutate the last-event value (onmessage stores every
parsed frame in lastMessage before inspecting its type), contradicting the
claim that it is left unchanged. -/
theorem C4_unknown_kind_mutates_last_event :
    (dispatch (some unknownKindFrame) initSystem).hook.lastMessage
        = some unknownKindFrame ∧
    initSystem.hook.lastMessage = none := by decide

/-- C4 amended: a frame that is not valid JSON mutates nothing at all; a
valid JSON frame whose discriminator is unrecognized updates only the
last-event value (to that frame) and leaves the alert counter, the metric
buffer and both refetch coordinators unchanged. -/
theorem C4_undecoded_frames_effects :
    (∀ s : SystemState, dispatch none s = s) ∧
    (∀ (s : SystemState) (d : JsonObj),
        d.get "type" ≠ some (JsonVal.str "alert_new") →
        d.get "type" ≠ some (JsonVal.str "alert_ack") →
        d.get "type" ≠ some (JsonVal.str "alert_resolve") →
        d.get "type" ≠ some (JsonVal.str "metric_update") →
        (dispatch (some d) s).hook.alertCount = s.hook.alertCount ∧
        (dispatch (some d) s).cpuHistory = s.cpuHistory ∧
        (dispatch (some d) s).alertsFetches = s.alertsFetches ∧
        (dispatch (some d) s).devicesFetches = s.devicesFetches ∧
        (dispatch (some d) s).hook.lastMessage = some d) := by
  refine ⟨fun s => rfl, ?_⟩
  intro s d h1 h2 h3 h4
  refine ⟨?_, ?_, ?_, rfl, rfl⟩
  · simp [dispatch, onMessage, alertCountStep, h1, h2, h3]
  · simp [dispatch, metricStep, h4]
  · simp [dispatch, alertsEventRefetch, isAlertEvent, h1, h2, h3]

/-- Witness for C4 amended at the unknown_kind frame and the initial
state. -/
theorem C4_undecoded_frames_effects_witness :
    dispatch none initSystem = initSystem ∧
    ((dispatch (some unknownKindFrame) initSystem).hook.alertCount
        = initSystem.hook.alertCount ∧
     (dispatch (some unknownKindFrame) initSystem).cpuHistory
        = initSystem.cpuHistory ∧
     (dispatch (some unknownKindFrame) initSystem).alertsFetches
        = initSystem.alertsFetches ∧
     (dispatch (some unknownKindFrame) initSystem).devicesFetches
        = initSystem.devicesFetches ∧
     (dispatch (some unknownKindFrame) initSystem).hook.lastMessage
        = some unknownKindFrame) :=
  ⟨C4_undecoded_frames_effects.1 initSystem,
   C4_undecoded_frames_effects.2 initSystem unknownKindFrame
     (by decide) (by decide) (by decide) (by decide)⟩

/-- C5 counterexample: dispatching a device_isolated or device_reinstated
event triggers no fetch on the devices page (the page has no WebSocket
subscription), contradicting the claim that it refetches on those
events. -/
theorem C5_device_events_trigger_no_refetch :
    (dispatch (some deviceIsolatedFrame) initSystem).devicesFetches
        = initSystem.devicesFetches ∧
    (dispatch (some deviceReinstatedFrame) initSystem).devicesFetches
        = initSystem.devicesFetches ∧
    devicesPageStep ⟨⟨"", 1⟩, 0⟩ (.wsEvent deviceIsolatedFrame) = ⟨⟨"", 1⟩, 0⟩ := by
  decide

/-- C5 amended: each page issues a snapshot fetch whenever its fetch
request changes (alerts: filter or page; devices: search or page; the page
sizes are constants), and the alerts page also refetches on alert_new,
alert_ack and alert_resolve events; the devices page has no push-event
subscription, so dispatched events never trigger a fetch there. -/
theorem C5_refetch_coordinator :
    (∀ (s : AlertsPageState) (f : String),
        (⟨f, 1⟩ : AlertsRequest) ≠ s.request →
        (alertsPageStep s (.clickFilter f)).fetches = s.fetches + 1) ∧
    (∀ (s : AlertsPageState) (p : ℕ),
        (⟨s.request.filter, p⟩ : AlertsRequest) ≠ s.request →
        (alertsPageStep s (.setPage p)).fetches = s.fetches + 1) ∧
    (∀ (s : AlertsPageState) (d : JsonObj), isAlertEvent d →
        (alertsPageStep s (.wsEvent d)).fetches = s.fetches + 1) ∧
    (∀ (s : DevicesPageState) (q : String),
        (⟨q, 1⟩ : DevicesRequest) ≠ s.request →
        (devicesPageStep s (.setSearch q)).fetches = s.fetches + 1) ∧
    (∀ (s : DevicesPageState) (p : ℕ),
        (⟨s.request.search, p⟩ : DevicesRequest) ≠ s.request →
        (devicesPageStep s (.setPage p)).fetches = s.fetches + 1) ∧
    (∀ (s : DevicesPageState) (d : JsonObj),
        devicesPageStep s (.wsEvent d) = s) := by
  refine ⟨?_, ?_, ?_, ?_, ?_, fun s d => rfl⟩
  · intro s f h
    simp [alertsPageStep, h]
  · intro s p h
    simp [alertsPageStep, h]
  · intro s d h
    simp [alertsPageStep, h]
  · intro s q h
    simp [devicesPageStep, h]
  · intro s p h
    simp [devicesPageStep, h]

/-- Witness for C5 amended at concrete page states and frames. -/
theorem C5_refetch_coordinator_witness :
    (alertsPageStep ⟨⟨"active", 1⟩, 3⟩ (.clickFilter "all")).fetches = 3 + 1 ∧
    (alertsPageStep ⟨⟨"active", 1⟩, 3⟩ (.setPage 2)).fetches = 3 + 1 ∧
    (alertsPageStep ⟨⟨"active", 1⟩, 3⟩ (.wsEvent alertNewFrame)).fetches = 3 + 1 ∧
    (devicesPageStep ⟨⟨"", 1⟩, 2⟩ (.setSearch "icu")).fetches = 2 + 1 ∧
    (devicesPageStep ⟨⟨"", 1⟩, 2⟩ (.setPage 4)).fetches = 2 + 1 ∧
    devicesPageStep ⟨⟨"", 1⟩, 2⟩ (.wsEvent deviceReinstatedFrame) = ⟨⟨"", 1⟩, 2⟩ :=
  ⟨C5_refetch_coordinator.1 ⟨⟨"active", 1⟩, 3⟩ "all" (by decide),
   C5_refetch_coordinator.2.1 ⟨⟨"active", 1⟩, 3⟩ 2 (by decide),
   C5_refetch_coordinator.2.2.1 ⟨⟨"active", 1⟩, 3⟩ alertNewFrame (by decide),
   C5_refetch_coordinator.2.2.2.1 ⟨⟨"", 1⟩, 2⟩ "icu" (by decide),
   C5_refetch_coordinator.2.2.2.2.1 ⟨⟨"", 1⟩, 2⟩ 4 (by decide),
   C5_refetch_coordinator.2.2.2.2.2 ⟨⟨"", 1⟩, 2⟩ deviceReinstatedFrame⟩

/-- C6: every successfully resolving fetch overwrites the displayed items
and total with its own result regardless of what is displayed, so when
fetch A is issued, then fetch B, and B resolves before A, the final display
is the result of A. -/
theorem C6_late_response_wins :
    (∀ (d : AlertsDisplay) (items : List ℕ) (total : ℕ),
        applyAlertsResponse d (.ok items total) = ⟨items, total, false⟩) ∧
    (∀ (d : AlertsDisplay) (itemsA : List ℕ) (totalA : ℕ)
        (itemsB : List ℕ) (totalB : ℕ),
        [FetchResponse.ok itemsB totalB,
         FetchResponse.ok itemsA totalA].foldl applyAlertsResponse d
          = ⟨itemsA, totalA, false⟩) :=
  ⟨fun _ _ _ => rfl, fun _ _ _ _ _ => rfl⟩

/-- C7: a close with code 1000 never schedules a reconnection, whatever the
connection state; a close with any other code always schedules one. -/
theorem C7_normal_close_no_reconnect :
    ∀ s : ConnState,
      (connStep s (.closed 1000)).2 = none ∧
      (∀ code : ℕ, code ≠ 1000 →
        (connStep s (.closed code)).2 = some (reconnectDelay s.reconnectAttempt)) := by
  intro s
  refine ⟨by simp [connStep], ?_⟩
  intro code h
  simp [connStep, h]

/-- Witness for C7 at attempt count 4 and close codes 1000 and 1006. -/
theorem C7_normal_close_no_reconnect_witness :
    (connStep ⟨true, 4⟩ (.closed 1000)).2 = none ∧
    (connStep ⟨true, 4⟩ (.closed 1006)).2 = some (reconnectDelay 4) :=
  ⟨(C7_normal_close_no_reconnect ⟨true, 4⟩).1,
   (C7_normal_close_no_reconnect ⟨true, 4⟩).2 1006 (by decide)⟩

/-- C8: a successful open resets the attempt counter to 0, so the delay
scheduled by the next abnormal close is reconnectDelay 0 = 1000 ms,
whatever the attempt count before the open. -/
theorem C8_open_resets_attempt :
    ∀ (s : ConnState) (code : ℕ),
      (connStep s .opened).1.reconnectAttempt = 0 ∧
      (code ≠ 1000 →
        (connStep (connStep s .opened).1 (.closed code)).2 = some 1000) := by
  intro s code
  refine ⟨rfl, ?_⟩
  intro h
  simp [connStep, h, reconnectDelay,
    BASE_RECONNECT_DELAY_MS, MAX_RECONNECT_DELAY_MS]

/-- Witness for C8 after seven failed attempts and a close with code
1006. -/
theorem C8_open_resets_attempt_witness :
    (connStep (⟨false, 7⟩ : ConnState) .opened).1.reconnectAttempt = 0 ∧
    (connStep (connStep (⟨false, 7⟩ : ConnState) .opened).1 (.closed 1006)).2
      = some 1000 :=
  ⟨(C8_open_resets_attempt ⟨false, 7⟩ 1006).1,
   (C8_open_resets_attempt ⟨false, 7⟩ 1006).2 (by decide)⟩

/-- C9: a failing fetch resets the displayed items to empty, keeps the
prior total, and clears the loading flag; a succeeding fetch also clears
the loading flag. Both pages behave identically. -/
theorem C9_fetch_failure_resets_items :
    (∀ d : AlertsDisplay, applyAlertsResponse d .err = ⟨[], d.total, false⟩) ∧
    (∀ (d : AlertsDisplay) (items : List ℕ) (total : ℕ),
        (applyAlertsResponse d (.ok items total)).loading = false) ∧
    (∀ d : DevicesDisplay, applyDevicesResponse d .err = ⟨[], d.total, false⟩) ∧
    (∀ (d : DevicesDisplay) (items : List ℕ) (total : ℕ),
        (applyDevicesResponse d (.ok items total)).loading = false) :=
  ⟨fun _ => rfl, fun _ _ _ => rfl, fun _ => rfl, fun _ _ _ => rfl⟩

/-- C10: the alert counter transition depends only on the type field: two
frames with equal type fields produce equal transitions, a bare alert_new
frame with no other payload increments the counter, and the same alert_new
frame dispatched twice increments it twice (no deduplication). -/
theorem C10_counter_depends_only_on_type :
    (∀ (d e : JsonObj) (c : ℤ), d.get "type" = e.get "type" →
        alertCountStep d c = alertCountStep e c) ∧
    (∀ c : ℤ, alertCountStep alertNewBareFrame c = c + 1) ∧
    (∀ c : ℤ, alertCountStep alertNewFrame (alertCountStep alertNewFrame c)
        = c + 2) := by
  refine ⟨alertCountStep_congr, ?_, ?_⟩
  · intro c
    simp [alertCountStep, alertNewBareFrame, JsonObj.get]
  · intro c
    simp [alertCountStep, alertNewFrame, JsonObj.get]
    ring

/-- Witness for C10 at two distinct frames sharing the type alert_ack. -/
theorem C10_counter_depends_only_on_type_witness :
    alertCountStep alertAckFrame 3
        = alertCountStep ⟨[("type", JsonVal.str "alert_ack")]⟩ 3 ∧
    alertCountStep alertNewBareFrame 0 = 0 + 1 :=
  ⟨C10_counter_depends_only_on_type.1 alertAckFrame
      ⟨[("type", JsonVal.str "alert_ack")]⟩ 3 (by decide),
   C10_counter_depends_only_on_type.2.1 0⟩

end HospitalMonitor
